import Mathlib

/-!
Verification of the DevopsAssignment service (src/main.py): a Flask app with
two routes. `/get_info` increments a Prometheus counter, logs the serving pod
name, and returns a JSON object with the configured version and title.
`/metrics` serializes the counter in the Prometheus text exposition format.

The embedding models the process environment as three optional strings, the
counter as a natural number, and each handler as a pure function from the
counter state to its observable output together with the new counter state.
The `/get_info` handler additionally returns the ordered list of its
observable effects (counter increment, log line, response), mirroring the
statement order in the source.
-/

namespace DevopsAssignment

/-- Process environment: the three variables the program reads via
`os.getenv`. `none` models an unset variable. -/
structure Env where
  appVersion : Option String
  appTitle : Option String
  hostname : Option String
deriving DecidableEq

/-- Embedding of `os.getenv(name, dflt)`: the variable value when set,
otherwise the default. -/
def getenv (value : Option String) (dflt : String) : String :=
  value.getD dflt

/-- Embedding of `APP_VERSION = os.getenv("APP_VERSION", "1.0")` (main.py
line 9), evaluated once at module import, i.e. process startup. -/
def APP_VERSION (env : Env) : String :=
  getenv env.appVersion "1.0"

/-- Embedding of `APP_TITLE = os.getenv("APP_TITLE", "Devops for Cloud
Assignment")` (main.py line 10), evaluated once at process startup. -/
def APP_TITLE (env : Env) : String :=
  getenv env.appTitle "Devops for Cloud Assignment"

/-- Initial value of the Prometheus counter `REQUEST_COUNT` (main.py
line 12): a freshly constructed `Counter` starts at 0. -/
def requestCountInit : Nat := 0

/-- Embedding of `REQUEST_COUNT.inc()`: the counter grows by exactly 1. -/
def counterInc (c : Nat) : Nat := c + 1

/-- An HTTP response as produced by `jsonify`: status code plus the JSON
object, kept as an association list of key/value pairs. -/
structure Response where
  status : Nat
  body : List (String × String)
deriving DecidableEq

/-- Observable effects of the `/get_info` handler, in execution order. -/
inductive Ev where
  | inc : Ev
  | log : String → Ev
  | respond : Response → Ev
deriving DecidableEq

/-- Embedding of the `get_info` handler (main.py lines 14-22). Its free
variables `APP_VERSION` and `APP_TITLE` are module-level globals fixed at
startup, so they are parameters here; `HOSTNAME` is read by the handler
itself on every request, so the request-time environment is a parameter too.
The result is the ordered effect trace, the response, and the new counter
state. `jsonify` responds with status 200. -/
def get_info (appVersion appTitle : String) (requestEnv : Env) (count : Nat) :
    (List Ev × Response) × Nat :=
  let count1 := counterInc count
  let pod_name := getenv requestEnv.hostname "unknown-pod"
  let logLine := "Request served by pod: " ++ pod_name
  let response : Response :=
    ⟨200, [("APP_VERSION", appVersion), ("APP_TITLE", appTitle)]⟩
  (([Ev.inc, Ev.log logLine, Ev.respond response], response), count1)

/-- The handler as the running server invokes it: the globals are computed
from the startup environment, while `HOSTNAME` comes from the environment
current at request time. -/
def serverGetInfo (startupEnv requestEnv : Env) (count : Nat) :
    (List Ev × Response) × Nat :=
  get_info (APP_VERSION startupEnv) (APP_TITLE startupEnv) requestEnv count

/-- A `/get_info` call followed by the downstream response write, which may
fail. The handler has already run (and incremented the counter) before the
write happens, so the new counter state does not depend on the write
outcome. -/
def getInfoWithWrite (appVersion appTitle : String) (requestEnv : Env)
    (count : Nat) (writeSucceeds : Bool) : Option Response × Nat :=
  let r := get_info appVersion appTitle requestEnv count
  ((if writeSucceeds then some r.1.2 else none), r.2)

/-- Embedding of `CONTENT_TYPE_LATEST` of prometheus_client: the standard
text exposition media type. -/
def CONTENT_TYPE_LATEST : String :=
  "text/plain; version=0.0.4; charset=utf-8"

/-- One line of the Prometheus text exposition format: a HELP comment, a
TYPE comment, or a sample with its numeric value. -/
inductive ExpoLine where
  | help : String → String → ExpoLine
  | type : String → String → ExpoLine
  | sample : String → Nat → ExpoLine
deriving DecidableEq

/-- The exposition of the registry at a given counter value. The repository
registers exactly one metric, `Counter("requests_total", "Total number of
requests to /get_info")` (main.py line 12); prometheus_client renders it as
a HELP line, a TYPE line declaring `counter`, and one sample line. -/
def exposition (count : Nat) : List ExpoLine :=
  [ExpoLine.help "requests_total" "Total number of requests to /get_info",
   ExpoLine.type "requests_total" "counter",
   ExpoLine.sample "requests_total" count]

/-- Rendering of one exposition line as text. Counter values are floats in
prometheus_client, so an integer count renders with a trailing `.0`. -/
def renderLine : ExpoLine → String
  | ExpoLine.help n d => "# HELP " ++ n ++ " " ++ d
  | ExpoLine.type n t => "# TYPE " ++ n ++ " " ++ t
  | ExpoLine.sample n v => n ++ " " ++ toString v ++ ".0"

/-- Embedding of `generate_latest()`: the rendered exposition, one line per
entry, each followed by a newline. -/
def generate_latest (count : Nat) : String :=
  String.join ((exposition count).map (fun l => renderLine l ++ "\n"))

/-- The observable output of the `/metrics` handler: the structured
exposition, its rendered text, the HTTP status, and the headers. -/
structure MetricsOut where
  body : List ExpoLine
  rendered : String
  status : Nat
  headers : List (String × String)
deriving DecidableEq

/-- Embedding of the `metrics` handler (main.py lines 24-26): it returns
`generate_latest(), 200, Content-Type header` and leaves the counter state
unchanged. -/
def metrics (count : Nat) : MetricsOut × Nat :=
  (⟨exposition count, generate_latest count, 200,
    [("Content-Type", CONTENT_TYPE_LATEST)]⟩, count)

/-- Counter state after a sequence of n `/get_info` calls starting from
`count`. -/
def runGetInfoN (startupEnv requestEnv : Env) (count : Nat) : Nat → Nat
  | 0 => count
  | Nat.succ n =>
      (serverGetInfo startupEnv requestEnv
        (runGetInfoN startupEnv requestEnv count n)).2

/-- Outputs and final counter state of k consecutive `/metrics` calls
starting from `count`, threading the counter state through each call. -/
def exportRun (count : Nat) : Nat → List MetricsOut × Nat
  | 0 => ([], count)
  | Nat.succ k =>
      let step := metrics count
      let rest := exportRun step.2 k
      (step.1 :: rest.1, rest.2)

/-- Recognizer for a sample line carrying the metric name
`requests_total`. -/
def isRequestsTotalSample : ExpoLine → Bool
  | ExpoLine.sample n _ => n == "requests_total"
  | _ => false

theorem runGetInfoN_eq (s r : Env) (c : Nat) :
    ∀ n, runGetInfoN s r c n = c + n := by
  intro n
  induction n with
  | zero => rfl
  | succ n ih =>
      simp [runGetInfoN, serverGetInfo, get_info, counterInc, ih]
      omega

theorem exportRun_eq (c : Nat) :
    ∀ k, exportRun c k = (List.replicate k (metrics c).1, c) := by
  intro k
  induction k with
  | zero => rfl
  | succ k ih =>
      have h2 : (metrics c).2 = c := rfl
      simp [exportRun, List.replicate_succ, h2, ih]

/-- C1: for every configured version and title, every request-time
environment and every counter state, `get_info` responds with HTTP status
200 and a JSON body that is exactly the two-key object mapping
`APP_VERSION` to the configured version and `APP_TITLE` to the configured
title, with no other keys. -/
theorem get_info_response (version title : String) (e : Env) (c : Nat) :
    (get_info version title e c).1.2 =
      ⟨200, [("APP_VERSION", version), ("APP_TITLE", title)]⟩ := rfl

/-- C2: for every starting counter value C and every N, after a sequence of
N `/get_info` calls a subsequent `/metrics` call observes exactly C + N:
its structured body is the exposition at C + N and it leaves the counter at
C + N. -/
theorem counter_after_n_calls (s r : Env) (C N : Nat) :
    (metrics (runGetInfoN s r C N)).1.body = exposition (C + N) ∧
      (metrics (runGetInfoN s r C N)).2 = C + N := by
  rw [runGetInfoN_eq]
  exact ⟨rfl, rfl⟩

/-- C3: the counter starts at 0 and is non-decreasing under every
operation: `get_info` increases it by exactly 1, `metrics` leaves it
unchanged, and k consecutive `/metrics` calls with no intervening
`/get_info` all report the identical output while the counter stays put. -/
theorem counter_invariants :
    requestCountInit = 0 ∧
      (∀ v t e c, (get_info v t e c).2 = c + 1) ∧
      (∀ v t e c, c ≤ (get_info v t e c).2) ∧
      (∀ c, (metrics c).2 = c) ∧
      (∀ c k, (exportRun c k).1 = List.replicate k (metrics c).1 ∧
        (exportRun c k).2 = c) := by
  refine ⟨rfl, fun v t e c => rfl, fun v t e c => Nat.le_succ c,
    fun c => rfl, fun c k => ?_⟩
  rw [exportRun_eq]
  exact ⟨rfl, rfl⟩

/-- C4: when neither `APP_VERSION` nor `APP_TITLE` is set in the startup
environment, `get_info` substitutes the documented defaults: the response
body is exactly the two-key object with version `1.0` and title
`Devops for Cloud Assignment`, with status 200, whatever `HOSTNAME` and the
counter state are. -/
theorem default_config (h : Option String) (reqEnv : Env) (c : Nat) :
    (serverGetInfo ⟨none, none, h⟩ reqEnv c).1.2 =
      ⟨200, [("APP_VERSION", "1.0"),
             ("APP_TITLE", "Devops for Cloud Assignment")]⟩ := rfl

/-- C5: from a fresh process with version `2.3.1` and title `MyApp`, after
exactly three `/get_info` calls the `/metrics` output carries the sample
`requests_total` with value 3, rendered as the line
`requests_total 3.0`. -/
theorem scenario_three_calls :
    ExpoLine.sample "requests_total" 3 ∈
      (metrics (runGetInfoN ⟨some "2.3.1", some "MyApp", none⟩
        ⟨some "2.3.1", some "MyApp", none⟩ requestCountInit 3)).1.body ∧
      "requests_total 3.0" ∈
        ((metrics (runGetInfoN ⟨some "2.3.1", some "MyApp", none⟩
          ⟨some "2.3.1", some "MyApp", none⟩ requestCountInit 3)).1.body.map
            renderLine) := by
  decide

/-- C6: for every counter state, the exposition declares `requests_total`
with type `counter` and the fixed description, and carries exactly one
sample line for the metric name `requests_total`. -/
theorem requests_total_declared_once (count : Nat) :
    (exposition count).countP isRequestsTotalSample = 1 ∧
      ExpoLine.type "requests_total" "counter" ∈ exposition count ∧
      ExpoLine.help "requests_total" "Total number of requests to /get_info"
        ∈ exposition count := by
  refine ⟨?_, by simp [exposition], by simp [exposition]⟩
  simp [exposition, isRequestsTotalSample]

/-- C7: the `get_info` response depends only on the configured version and
title: two invocations with the same configuration yield identical
responses, whatever the counter values and whatever `HOSTNAME` values the
log line uses. -/
theorem response_noninterference (version title : String) (e1 e2 : Env)
    (c1 c2 : Nat) :
    (get_info version title e1 c1).1.2 =
      (get_info version title e2 c2).1.2 := rfl

/-- C8: each `get_info` call produces exactly the effect trace whose first
event is the single counter increment, followed by the log line and only
then the response; and whether the downstream response write succeeds or
fails, the counter afterwards holds c + 1. -/
theorem increment_before_response (version title : String) (e : Env)
    (c : Nat) (writeSucceeds : Bool) :
    (get_info version title e c).1.1 =
      [Ev.inc,
       Ev.log ("Request served by pod: " ++ getenv e.hostname "unknown-pod"),
       Ev.respond (get_info version title e c).1.2] ∧
      (getInfoWithWrite version title e c writeSucceeds).2 = c + 1 :=
  ⟨rfl, rfl⟩

/-- C9 fails as stated: `HOSTNAME` is read by the handler on each request
(main.py line 17), not once at startup, so changing it after startup
changes the logged pod identity. With the same startup environment, two
requests whose current environments carry `pod-a` and `pod-b` produce
different effect traces because the log lines differ. -/
theorem hostname_read_per_request :
    (serverGetInfo ⟨none, none, none⟩ ⟨none, none, some "pod-a"⟩ 0).1.1 ≠
      (serverGetInfo ⟨none, none, none⟩ ⟨none, none, some "pod-b"⟩ 0).1.1 := by
  decide

/-- C9 amended: `APP_VERSION` and `APP_TITLE` are consumed once at startup,
so the response body is unchanged by any later environment change, while
the logged pod identity is determined by the `HOSTNAME` of the environment
current at request time (and never affects the response body). -/
theorem startup_config_request_hostname (s e1 e2 : Env) (c1 c2 : Nat) :
    (serverGetInfo s e1 c1).1.2 = (serverGetInfo s e2 c2).1.2 ∧
      (∀ e c, (serverGetInfo s e c).1.1.get? 1 =
        some (Ev.log ("Request served by pod: " ++
          getenv e.hostname "unknown-pod"))) :=
  ⟨rfl, fun _ _ => rfl⟩

/-- C10: on a fresh process, before any `/get_info` call, `/metrics`
succeeds with status 200 and its payload reports `requests_total` with
value 0 rather than omitting the metric. -/
theorem fresh_export_zero :
    (metrics requestCountInit).1.status = 200 ∧
      ExpoLine.sample "requests_total" 0 ∈ (metrics requestCountInit).1.body := by
  decide

end DevopsAssignment
